import Mathlib

/-!
Verification of `tensorflow/lite/python/lite_v2_test_util.py`.

The file under study defines the test-helper class `ModelTest` with six
helper methods.  We give a shallow embedding of each helper:

* `_evaluateTFLiteModel` is modelled as a function over an abstract
  interpreter (its input details, output details and a post-invoke tensor
  read function) that produces the trace of interpreter calls it performs
  together with its result (the list of output tensors, or a test
  failure).
* `_assertValidDebugInfo` is modelled over a list of file paths with a
  faithful `os.path.basename`.
* The three model-construction helpers are modelled as Lean structures
  whose fields are the variables the Python trackables hold; the traced
  functions become Lean functions.  Scalar tensor values are modelled by
  rationals: every numeric literal in the source (2.0, 3.0, 0.0) and every
  product or sum of them is exactly representable in IEEE double
  precision, so exact arithmetic coincides with the float arithmetic the
  code performs on them.
* For the error-propagation claims, a second, fallible interpreter model
  is given in which every wrapped library call may raise, and the helper
  bodies are translated as the straight-line sequencing the Python code
  performs (the code contains no try/except).
-/

namespace LiteV2TestUtil

/-- Opaque tensor payload handed to `set_tensor` / returned by `get_tensor`. -/
abbrev Tensor := List Int

/-- One entry of `get_input_details()` / `get_output_details()`: the fields
the source reads, namely the tensor index and the stored shape signature. -/
structure TensorDetail where
  index : Nat
  shape_signature : List Int
deriving DecidableEq

/-- Abstract interpreter backing `Interpreter(model_content=tflite_model)`:
its input details, output details, and the tensor contents read back by
`get_tensor` after `invoke`. -/
structure Interp where
  inputDetails : List TensorDetail
  outputDetails : List TensorDetail
  readTensor : Nat → Tensor

/-- One interpreter call performed by `_evaluateTFLiteModel`, in order. -/
inductive Ev where
  | load
  | resize (index : Nat) (finalShape : List Int)
  | allocate
  | setTensor (index : Nat) (data : Tensor)
  | invoke
  | getTensor (index : Nat)
deriving DecidableEq

/-- How a helper call can fail the enclosing test: a failed
`assertTrue`, an IndexError from indexing `input_details` out of range,
or the AttributeError raised by `.all()` on the scalar `False` that a
non-broadcastable numpy comparison returns. -/
inductive TestFailure where
  | assertionFailure
  | indexError
  | attributeError
deriving DecidableEq

/-- Trace of interpreter calls plus the returned value (or test failure). -/
structure EvalResult where
  trace : List Ev
  result : Except TestFailure (List Tensor)

/-- The numpy check `(a == b).all()` on two 1-D arrays, with numpy
broadcasting: on arrays of equal length the comparison is elementwise; if
one array has length 1 its single element is broadcast against every
element of the other (a comparison against an empty array is vacuously
all-true); arrays of different lengths, neither of length 1, are not
broadcastable, so `a == b` is the scalar `False` and calling `.all()` on
it raises AttributeError, modelled by `none`. -/
def numpyAllEqual (a b : List Int) : Option Bool :=
  if a.length = b.length then
    some (decide (a = b))
  else
    match a, b with
    | [x], bb => some (bb.all fun y => decide (y = x))
    | aa, [y] => some (aa.all fun x => decide (x = y))
    | _, _ => none

/-- The `for idx, (shape_signature, final_shape) in enumerate(input_shapes)`
loop of `_evaluateTFLiteModel`: at position `idx` it runs
`assertTrue((input_details[idx][shape_signature] == shape_signature).all())`
with numpy broadcast semantics (`numpyAllEqual`), then calls
`resize_tensor_input` on that input tensor index.  Returns the resize
events performed and the failure, if any: a failed assert when the check
is broadcast-false, an AttributeError when the arrays are not
broadcastable. -/
def resizeInputs (it : Interp) :
    List (List Int × List Int) → Nat → List Ev × Option TestFailure
  | [], _ => ([], none)
  | (shapeSig, finalShape) :: rest, idx =>
    match it.inputDetails[idx]? with
    | none => ([], some TestFailure.indexError)
    | some d =>
      match numpyAllEqual d.shape_signature shapeSig with
      | some true =>
        let r := resizeInputs it rest (idx + 1)
        (Ev.resize d.index finalShape :: r.1, r.2)
      | some false => ([], some TestFailure.assertionFailure)
      | none => ([], some TestFailure.attributeError)

/-- `_evaluateTFLiteModel(self, tflite_model, input_data, input_shapes)`.
The Python default `input_shapes=None` and the guard `if input_shapes:`
treat `None` and the empty list identically; both are modelled by `[]`.
The method loads the interpreter, optionally checks-and-resizes each entry
of `input_shapes`, allocates, sets one input tensor per `zip` pair of
input details and input data, invokes once, and reads every output detail
in order. -/
def evaluateTFLiteModel (it : Interp) (input_data : List Tensor)
    (input_shapes : List (List Int × List Int)) : EvalResult :=
  let r := resizeInputs it input_shapes 0
  match r.2 with
  | some f => ⟨Ev.load :: r.1, Except.error f⟩
  | none =>
    ⟨Ev.load :: r.1 ++ [Ev.allocate]
        ++ (it.inputDetails.zip input_data).map (fun p => Ev.setTensor p.1.index p.2)
        ++ [Ev.invoke]
        ++ it.outputDetails.map (fun d => Ev.getTensor d.index),
      Except.ok (it.outputDetails.map (fun d => it.readTensor d.index))⟩

/-- `os.path.basename` for POSIX paths: everything after the last slash. -/
def basename (p : String) : String := (p.splitOn "/").getLastD ""

/-- The debug-metadata structure: a collection of source file paths. -/
structure DebugInfo where
  files : List String

/-- `_assertValidDebugInfo(self, debug_info)`: collect the basenames of all
files in the debug info and assert that they include lite_v2_test.py and
do not include lite_test.py.  `true` means both assertions pass. -/
def assertValidDebugInfo (debug_info : DebugInfo) : Bool :=
  let file_names := debug_info.files.map basename
  file_names.contains "lite_v2_test.py" && !(file_names.contains "lite_test.py")

/-! ### The trackable models built by the three construction helpers -/

/-- The `tracking.AutoTrackable` object built by `_getSimpleVariableModel`:
two scalar variables `v1` and `v2`. -/
structure SimpleVariableModel where
  v1 : ℚ
  v2 : ℚ
deriving DecidableEq

/-- `_getSimpleVariableModel`: `root.v1 = Variable(3.)`,
`root.v2 = Variable(2.)`. -/
def getSimpleVariableModel : SimpleVariableModel := { v1 := 3, v2 := 2 }

/-- The traced function `root.f = lambda x: root.v1 * root.v2 * x`
(Python multiplication associates to the left). -/
def SimpleVariableModel.f (root : SimpleVariableModel) (x : ℚ) : ℚ :=
  root.v1 * root.v2 * x

/-- The named variables the constructor of `_getSimpleVariableModel`
attaches to the trackable, with their initial scalar values. -/
def simpleVariableModelVariables : List (String × ℚ) :=
  [("v1", 3), ("v2", 2)]

/-- The `SimpleModelWithOneVariable` trackable built by
`_getSimpleModelWithVariables`: one variable `var` holding
`array_ops.zeros((1, 10))`, a 1 x 10 array of zeros. -/
structure SimpleModelWithOneVariable where
  var : List (List ℚ)
deriving DecidableEq

/-- `_getSimpleModelWithVariables` returns `SimpleModelWithOneVariable()`. -/
def getSimpleModelWithVariables : SimpleModelWithOneVariable :=
  { var := List.replicate 1 (List.replicate 10 0) }

/-- The traced `assign_add(self, x)` method:
`self.var.assign_add(x); return self.var`.  Elementwise addition of `x`
into the variable; returns the new state and the returned tensor. -/
def SimpleModelWithOneVariable.assign_add (m : SimpleModelWithOneVariable)
    (x : List (List ℚ)) : SimpleModelWithOneVariable × List (List ℚ) :=
  let v := List.zipWith (fun r xr => List.zipWith (fun a b => a + b) r xr) m.var x
  (⟨v⟩, v)

/-- The named variables the constructor of `SimpleModelWithOneVariable`
attaches to the trackable. -/
def simpleModelWithOneVariableVariables : List (String × List (List ℚ)) :=
  [("var", List.replicate 1 (List.replicate 10 0))]

/-- The `BasicModel` trackable built by `_getMultiFunctionModel`: fields
`y` and `z` start as `None` and may later hold a variable, so they are
modelled as `Option` scalars. -/
structure BasicModel where
  y : Option ℚ
  z : Option ℚ
deriving DecidableEq

/-- `BasicModel.__init__`: `self.y = None; self.z = None`. -/
def BasicModel.init : BasicModel := { y := none, z := none }

/-- `_getMultiFunctionModel` returns `BasicModel()`. -/
def getMultiFunctionModel : BasicModel := BasicModel.init

/-- Traced `add(self, x)`: create `self.y = Variable(2.)` if it is still
`None`, then return `x + self.y`.  Returns the new state and the value. -/
def BasicModel.add (m : BasicModel) (x : ℚ) : BasicModel × ℚ :=
  match m.y with
  | none => ({ m with y := some 2 }, x + 2)
  | some v => (m, x + v)

/-- Traced `sub(self, x)`: create `self.z = Variable(3.)` if it is still
`None`, then return `x - self.z`. -/
def BasicModel.sub (m : BasicModel) (x : ℚ) : BasicModel × ℚ :=
  match m.z with
  | none => ({ m with z := some 3 }, x - 3)
  | some v => (m, x - v)

/-- Traced `mul_add(self, x, y)`: create `self.z = Variable(3.)` if it is
still `None`, then return `x * self.z + y`. -/
def BasicModel.mul_add (m : BasicModel) (x y : ℚ) : BasicModel × ℚ :=
  match m.z with
  | none => ({ m with z := some 3 }, x * 3 + y)
  | some v => (m, x * v + y)

/-- Number of variables a `BasicModel` state currently holds: a field
counts once it is a variable rather than `None`. -/
def BasicModel.variableCount (m : BasicModel) : Nat :=
  (if m.y.isSome then 1 else 0) + (if m.z.isSome then 1 else 0)

/-- States of `BasicModel` reachable from construction by calling the
traced methods in any order. -/
inductive BasicModel.Reachable : BasicModel → Prop where
  | init : BasicModel.Reachable BasicModel.init
  | add {m : BasicModel} (x : ℚ) :
      BasicModel.Reachable m → BasicModel.Reachable (m.add x).1
  | sub {m : BasicModel} (x : ℚ) :
      BasicModel.Reachable m → BasicModel.Reachable (m.sub x).1
  | mulAdd {m : BasicModel} (x y : ℚ) :
      BasicModel.Reachable m → BasicModel.Reachable (m.mul_add x y).1

/-! ### Syntactic shape of the file -/

/-- The classes the file defines at top level (its test-helper classes).
`SimpleModelWithOneVariable` and `BasicModel` are local classes nested
inside helper methods, not test-helper classes of the file. -/
def liteV2TestUtilClasses : List String := ["ModelTest"]

/-- The methods defined directly on the `ModelTest` class, in source
order. -/
def modelTestHelperMethods : List String :=
  ["_evaluateTFLiteModel",
   "_evaluateTFLiteModelUsingSignatureDef",
   "_getSimpleVariableModel",
   "_getSimpleModelWithVariables",
   "_getMultiFunctionModel",
   "_assertValidDebugInfo"]

/-! ### Fallible interpreter model for error propagation

The Python methods contain no try/except, so a raised exception from any
wrapped library call aborts the method.  Here every wrapped call is
modelled as `Except`-valued, and the method bodies are the straight-line
sequencing the source performs. -/

/-- A Python exception raised by a wrapped library call. -/
abbrev PyErr := String

/-- Outcome of a helper method in the fallible model: a normal return, a
test-assertion failure, or an uncaught exception. -/
inductive Outcome (α : Type) where
  | ok (v : α)
  | assertFail
  | exn (e : PyErr)
deriving DecidableEq

/-- Sequence an `Except`-valued library call into an outcome: a raised
exception aborts the method (there is no handler in the source). -/
def liftE {α β : Type} : Except PyErr α → (α → Outcome β) → Outcome β
  | Except.error e, _ => Outcome.exn e
  | Except.ok a, k => k a

/-- Sequence two outcome computations. -/
def Outcome.andThen {α β : Type} : Outcome α → (α → Outcome β) → Outcome β
  | Outcome.ok a, k => k a
  | Outcome.assertFail, _ => Outcome.assertFail
  | Outcome.exn e, _ => Outcome.exn e

/-- Interpreter in which every wrapped library call may raise. -/
structure FallibleInterp where
  construct : Except PyErr Unit
  getInputDetails : Except PyErr (List TensorDetail)
  resizeOp : Nat → List Int → Except PyErr Unit
  allocateOp : Except PyErr Unit
  setTensorOp : Nat → Tensor → Except PyErr Unit
  invokeOp : Except PyErr Unit
  getOutputDetails : Except PyErr (List TensorDetail)
  getTensorOp : Nat → Except PyErr Tensor
  signatureRunner :
    String → Except PyErr (List (String × Tensor) → Except PyErr (List (String × Tensor)))

/-- Fallible version of the shape-check-and-resize loop, with the numpy
broadcast check (`numpyAllEqual`): a broadcast-false check fails the
assert; non-broadcastable arrays make `.all()` raise AttributeError. -/
def resizeInputsF (b : FallibleInterp) (details : List TensorDetail) :
    List (List Int × List Int) → Nat → Outcome Unit
  | [], _ => Outcome.ok ()
  | (shapeSig, finalShape) :: rest, idx =>
    match details[idx]? with
    | none => Outcome.exn "IndexError"
    | some d =>
      match numpyAllEqual d.shape_signature shapeSig with
      | some true =>
        liftE (b.resizeOp d.index finalShape) fun _ =>
          resizeInputsF b details rest (idx + 1)
      | some false => Outcome.assertFail
      | none => Outcome.exn "AttributeError"

/-- Fallible version of the `set_tensor` loop over the zipped pairs. -/
def setTensorsF (b : FallibleInterp) : List (TensorDetail × Tensor) → Outcome Unit
  | [] => Outcome.ok ()
  | (d, t) :: rest =>
    liftE (b.setTensorOp d.index t) fun _ => setTensorsF b rest

/-- Fallible version of the output-reading comprehension. -/
def readOutputsF (b : FallibleInterp) : List TensorDetail → Outcome (List Tensor)
  | [] => Outcome.ok []
  | d :: rest =>
    liftE (b.getTensorOp d.index) fun t =>
      Outcome.andThen (readOutputsF b rest) fun ts => Outcome.ok (t :: ts)

/-- `_evaluateTFLiteModel` in the fallible model, following the source
line by line: construct the interpreter, get input details, run the
shape-check-and-resize loop, allocate, get output details, get input
details again, set each zipped input tensor, invoke, read all outputs. -/
def evaluateTFLiteModelF (b : FallibleInterp) (input_data : List Tensor)
    (input_shapes : List (List Int × List Int)) : Outcome (List Tensor) :=
  liftE b.construct fun _ =>
  liftE b.getInputDetails fun input_details =>
  Outcome.andThen (resizeInputsF b input_details input_shapes 0) fun _ =>
  liftE b.allocateOp fun _ =>
  liftE b.getOutputDetails fun output_details =>
  liftE b.getInputDetails fun input_details2 =>
  Outcome.andThen (setTensorsF b (input_details2.zip input_data)) fun _ =>
  liftE b.invokeOp fun _ =>
  readOutputsF b output_details

/-- `_evaluateTFLiteModelUsingSignatureDef` in the fallible model:
construct the interpreter, look up the signature runner for the method
name, call it on the inputs. -/
def evaluateTFLiteModelUsingSignatureDefF (b : FallibleInterp)
    (method_name : String) (inputs : List (String × Tensor)) :
    Outcome (List (String × Tensor)) :=
  liftE b.construct fun _ =>
  liftE (b.signatureRunner method_name) fun runner =>
  liftE (runner inputs) Outcome.ok

/-- `_getSimpleVariableModel` in the fallible model: `Variable(3.)` then
`Variable(2.)`, either construction may raise. -/
def getSimpleVariableModelF (mkVariable : ℚ → Except PyErr ℚ) :
    Outcome SimpleVariableModel :=
  liftE (mkVariable 3) fun a =>
  liftE (mkVariable 2) fun b =>
  Outcome.ok { v1 := a, v2 := b }

/-! ### Instance state of the test class

None of the helper methods assigns any attribute on `self`; `self` is only
used to call the inherited assertion methods.  The explicit state-passing
translation therefore threads the instance attribute store through each
helper unchanged. -/

/-- Attribute store of a `ModelTest` instance. -/
structure ModelTestState where
  attrs : List (String × Nat)
deriving DecidableEq

/-- `_evaluateTFLiteModel` with the instance state made explicit. -/
def evaluateTFLiteModelSelf (s : ModelTestState) (it : Interp)
    (input_data : List Tensor) (input_shapes : List (List Int × List Int)) :
    ModelTestState × EvalResult :=
  (s, evaluateTFLiteModel it input_data input_shapes)

/-- `_evaluateTFLiteModelUsingSignatureDef` with the instance state made
explicit. -/
def evaluateTFLiteModelUsingSignatureDefSelf (s : ModelTestState)
    (b : FallibleInterp) (method_name : String)
    (inputs : List (String × Tensor)) :
    ModelTestState × Outcome (List (String × Tensor)) :=
  (s, evaluateTFLiteModelUsingSignatureDefF b method_name inputs)

/-- `_getSimpleVariableModel` with the instance state made explicit. -/
def getSimpleVariableModelSelf (s : ModelTestState) :
    ModelTestState × SimpleVariableModel :=
  (s, getSimpleVariableModel)

/-- `_getSimpleModelWithVariables` with the instance state made explicit. -/
def getSimpleModelWithVariablesSelf (s : ModelTestState) :
    ModelTestState × SimpleModelWithOneVariable :=
  (s, getSimpleModelWithVariables)

/-- `_getMultiFunctionModel` with the instance state made explicit. -/
def getMultiFunctionModelSelf (s : ModelTestState) :
    ModelTestState × BasicModel :=
  (s, getMultiFunctionModel)

/-- `_assertValidDebugInfo` with the instance state made explicit. -/
def assertValidDebugInfoSelf (s : ModelTestState) (debug_info : DebugInfo) :
    ModelTestState × Bool :=
  (s, assertValidDebugInfo debug_info)

/-- Is an event a `set_tensor` call? -/
def isSetEv : Ev → Bool
  | Ev.setTensor _ _ => true
  | _ => false

/-- A fallible interpreter whose construction raises. -/
def errInterp : FallibleInterp where
  construct := Except.error "boom"
  getInputDetails := Except.ok []
  resizeOp := fun _ _ => Except.ok ()
  allocateOp := Except.ok ()
  setTensorOp := fun _ _ => Except.ok ()
  invokeOp := Except.ok ()
  getOutputDetails := Except.ok []
  getTensorOp := fun _ => Except.ok []
  signatureRunner := fun _ => Except.ok fun i => Except.ok i

/-- An interpreter with one input tensor whose stored shape signature is
[1, 4]. -/
def mismatchInterp : Interp where
  inputDetails := [⟨0, [1, 4]⟩]
  outputDetails := []
  readTensor := fun _ => []

/-- An interpreter with one input tensor whose stored shape signature is
the length-1 array [-1], which numpy broadcasts against longer expected
signatures. -/
def broadcastInterp : Interp where
  inputDetails := [⟨0, [-1]⟩]
  outputDetails := []
  readTensor := fun _ => []

/-- An interpreter with one input tensor and one output tensor. -/
def truncInterp : Interp where
  inputDetails := [⟨0, [1]⟩]
  outputDetails := [⟨1, [2]⟩]
  readTensor := fun _ => [7]

/-! ### Shared lemmas -/

/-- With no `input_shapes` (the `None` default), `_evaluateTFLiteModel`
performs load, allocate, one `set_tensor` per zipped pair, one `invoke`,
and one `get_tensor` per output detail, and returns the outputs in
output-detail order. -/
lemma evaluateTFLiteModel_noShapes (it : Interp) (input_data : List Tensor) :
    evaluateTFLiteModel it input_data [] =
      { trace := Ev.load :: Ev.allocate ::
          ((it.inputDetails.zip input_data).map (fun p => Ev.setTensor p.1.index p.2)
            ++ Ev.invoke :: it.outputDetails.map (fun d => Ev.getTensor d.index)),
        result := Except.ok (it.outputDetails.map fun d => it.readTensor d.index) } := by
  simp [evaluateTFLiteModel, resizeInputs]

/-- With distinct tensor indices in the input details, details at distinct
positions have distinct indices. -/
lemma nodup_map_index_ne {l : List TensorDetail}
    (h : (l.map TensorDetail.index).Nodup) {i j : Nat} {a b : TensorDetail}
    (ha : l[i]? = some a) (hb : l[j]? = some b) (hij : i ≠ j) :
    a.index ≠ b.index := by
  obtain ⟨hi, hia⟩ := List.getElem?_eq_some.mp ha
  obtain ⟨hj, hjb⟩ := List.getElem?_eq_some.mp hb
  have hi' : i < (l.map TensorDetail.index).length := by simpa using hi
  have hj' : j < (l.map TensorDetail.index).length := by simpa using hj
  intro hab
  apply hij
  have key : (l.map TensorDetail.index)[i] = (l.map TensorDetail.index)[j] := by
    rw [List.getElem_map, List.getElem_map, hia, hjb, hab]
  exact (List.Nodup.getElem_inj_iff h).mp key

/-- If the first failing numpy signature check in the resize loop is at
position `k` (every earlier position passes the broadcast check), the
loop stops there — with an assertion failure when the check is
broadcast-false, with an AttributeError when the arrays are not
broadcastable — and every resize it performed targets the tensor index
of an input detail strictly before position `k`. -/
lemma resizeInputs_first_mismatch (it : Interp)
    (shapes : List (List Int × List Int)) :
    ∀ (idx k : Nat) (d : TensorDetail) (sk : List Int × List Int),
    (∀ j, j < k → ∃ dj sj, it.inputDetails[idx + j]? = some dj ∧
        shapes[j]? = some sj ∧ numpyAllEqual dj.shape_signature sj.1 = some true) →
    it.inputDetails[idx + k]? = some d → shapes[k]? = some sk →
    numpyAllEqual d.shape_signature sk.1 ≠ some true →
    ((numpyAllEqual d.shape_signature sk.1 = some false →
        (resizeInputs it shapes idx).2 = some TestFailure.assertionFailure) ∧
      (numpyAllEqual d.shape_signature sk.1 = none →
        (resizeInputs it shapes idx).2 = some TestFailure.attributeError)) ∧
    (∀ i s, Ev.resize i s ∈ (resizeInputs it shapes idx).1 →
      ∃ j dj, j < k ∧ it.inputDetails[idx + j]? = some dj ∧ dj.index = i) := by
  induction shapes with
  | nil =>
    intro idx k d sk hmatch hd hs hne
    simp at hs
  | cons head rest ih =>
    obtain ⟨sig, fin⟩ := head
    intro idx k d sk hmatch hd hs hne
    cases k with
    | zero =>
      rw [Nat.add_zero] at hd
      rw [List.getElem?_cons_zero] at hs
      injection hs with hs
      subst hs
      cases hcheck : numpyAllEqual d.shape_signature sig with
      | none =>
        refine ⟨⟨?_, ?_⟩, ?_⟩
        · intro hfalse
          exact Option.noConfusion hfalse
        · intro _
          simp [resizeInputs, hd, hcheck]
        · intro i s hmem
          simp [resizeInputs, hd, hcheck] at hmem
      | some bv =>
        cases bv with
        | true => exact absurd hcheck hne
        | false =>
          refine ⟨⟨?_, ?_⟩, ?_⟩
          · intro _
            simp [resizeInputs, hd, hcheck]
          · intro hnone
            exact Option.noConfusion hnone
          · intro i s hmem
            simp [resizeInputs, hd, hcheck] at hmem
    | succ hk =>
      obtain ⟨d0, s0, hd0, hs0, hsig0⟩ := hmatch 0 hk.succ_pos
      rw [Nat.add_zero] at hd0
      rw [List.getElem?_cons_zero] at hs0
      injection hs0 with hs0
      rw [← hs0] at hsig0
      have hsig0' : numpyAllEqual d0.shape_signature sig = some true := hsig0
      have hmatch' : ∀ j, j < hk → ∃ dj sj,
          it.inputDetails[idx + 1 + j]? = some dj ∧
          rest[j]? = some sj ∧ numpyAllEqual dj.shape_signature sj.1 = some true := by
        intro j hj
        obtain ⟨dj, sj, h1, h2, h3⟩ := hmatch (j + 1) (Nat.succ_lt_succ hj)
        rw [List.getElem?_cons_succ] at h2
        have hidx : idx + (j + 1) = idx + 1 + j := by omega
        rw [hidx] at h1
        exact ⟨dj, sj, h1, h2, h3⟩
      have hd' : it.inputDetails[idx + 1 + hk]? = some d := by
        have hidx : idx + (hk + 1) = idx + 1 + hk := by omega
        rw [← hidx]
        exact hd
      have hs' : rest[hk]? = some sk := by
        rw [List.getElem?_cons_succ] at hs
        exact hs
      obtain ⟨ih1, ih2⟩ := ih (idx + 1) hk d sk hmatch' hd' hs' hne
      have hunfold : resizeInputs it ((sig, fin) :: rest) idx =
          (Ev.resize d0.index fin :: (resizeInputs it rest (idx + 1)).1,
            (resizeInputs it rest (idx + 1)).2) := by
        simp [resizeInputs, hd0, hsig0']
      rw [hunfold]
      refine ⟨ih1, ?_⟩
      intro i s hmem
      rcases List.mem_cons.mp hmem with hhd | htl
      · injection hhd with h1 h2
        refine ⟨0, d0, hk.succ_pos, ?_, h1.symm⟩
        rw [Nat.add_zero]
        exact hd0
      · obtain ⟨j, dj, hjk, hdj, hdi⟩ := ih2 i s htl
        have hidx : idx + 1 + j = idx + (j + 1) := by omega
        rw [hidx] at hdj
        exact ⟨j + 1, dj, Nat.succ_lt_succ hjk, hdj, hdi⟩

/-! ### Claim theorems -/

/-- C1: for every interpreter backend and input data, `_evaluateTFLiteModel`
(with the default `input_shapes`) loads an interpreter from the model
content, feeds each provided input tensor in order (one `set_tensor` per
zipped pair of input details and input data), invokes exactly once, and
returns the output tensors read from the output details, in output-detail
order. -/
theorem evaluateTFLiteModel_wrapper_sequence (it : Interp) (input_data : List Tensor) :
    evaluateTFLiteModel it input_data [] =
      { trace := Ev.load :: Ev.allocate ::
          ((it.inputDetails.zip input_data).map (fun p => Ev.setTensor p.1.index p.2)
            ++ Ev.invoke :: it.outputDetails.map (fun d => Ev.getTensor d.index)),
        result := Except.ok (it.outputDetails.map fun d => it.readTensor d.index) } ∧
    (evaluateTFLiteModel it input_data []).trace.count Ev.invoke = 1 ∧
    (evaluateTFLiteModel it input_data []).trace.count Ev.load = 1 := by
  have hs1 : List.count Ev.invoke
      ((it.inputDetails.zip input_data).map fun p => Ev.setTensor p.1.index p.2) = 0 := by
    rw [List.count_eq_zero]
    simp
  have hs2 : List.count Ev.invoke
      (it.outputDetails.map fun d => Ev.getTensor d.index) = 0 := by
    rw [List.count_eq_zero]
    simp
  have hl1 : List.count Ev.load
      ((it.inputDetails.zip input_data).map fun p => Ev.setTensor p.1.index p.2) = 0 := by
    rw [List.count_eq_zero]
    simp
  have hl2 : List.count Ev.load
      (it.outputDetails.map fun d => Ev.getTensor d.index) = 0 := by
    rw [List.count_eq_zero]
    simp
  refine ⟨evaluateTFLiteModel_noShapes it input_data, ?_, ?_⟩ <;>
    rw [evaluateTFLiteModel_noShapes] <;>
    simp [List.count_cons, List.count_append, hs1, hs2, hl1, hl2]

/-- C2 counterexample: a stored shape signature [-1] differs from the
expected signature [-1, -1] at the same position, yet numpy broadcasting
makes the assert pass: the call does not fail with an assertion and the
tensor IS resized, refuting the claim that any difference fails the test
before resizing. -/
theorem evaluateTFLiteModel_broadcast_mismatch_resizes :
    broadcastInterp.inputDetails[0]? = some ⟨0, [-1]⟩ ∧
    TensorDetail.shape_signature ⟨0, [-1]⟩ ≠ [-1, -1] ∧
    (evaluateTFLiteModel broadcastInterp [] [([-1, -1], [2, 2])]).result
      ≠ Except.error TestFailure.assertionFailure ∧
    Ev.resize 0 [2, 2] ∈
      (evaluateTFLiteModel broadcastInterp [] [([-1, -1], [2, 2])]).trace := by
  have hres : evaluateTFLiteModel broadcastInterp [] [([-1, -1], [2, 2])] =
      { trace := [Ev.load, Ev.resize 0 [2, 2], Ev.allocate, Ev.invoke],
        result := Except.ok [] } := rfl
  refine ⟨rfl, by decide, ?_, ?_⟩
  · rw [hres]
    intro h
    exact Except.noConfusion h
  · rw [hres]
    exact List.mem_cons_of_mem _ (List.mem_cons_self _ _)

/-- C2 amended: if, positions before `k` passing the numpy broadcast
check, the stored shape signature of input `k` is not broadcast-equal to
the expected signature of the `k`-th entry of `input_shapes`,
`_evaluateTFLiteModel` fails before resizing that tensor — with a test
assertion when the arrays are broadcastable and elementwise unequal, and
with an uncaught AttributeError when they are not broadcastable — and no
input tensor from position `k` on is ever resized: the method stops at
the failure, with no recovery or retry. -/
theorem evaluateTFLiteModel_signature_check_fails
    (it : Interp) (input_data : List Tensor)
    (input_shapes : List (List Int × List Int)) (k : Nat)
    (d : TensorDetail) (sk : List Int × List Int)
    (hnodup : (it.inputDetails.map TensorDetail.index).Nodup)
    (hmatch : ∀ j, j < k → ∃ dj sj, it.inputDetails[j]? = some dj ∧
        input_shapes[j]? = some sj ∧ numpyAllEqual dj.shape_signature sj.1 = some true)
    (hd : it.inputDetails[k]? = some d) (hs : input_shapes[k]? = some sk)
    (hne : numpyAllEqual d.shape_signature sk.1 ≠ some true) :
    ((numpyAllEqual d.shape_signature sk.1 = some false →
        (evaluateTFLiteModel it input_data input_shapes).result
          = Except.error TestFailure.assertionFailure) ∧
      (numpyAllEqual d.shape_signature sk.1 = none →
        (evaluateTFLiteModel it input_data input_shapes).result
          = Except.error TestFailure.attributeError)) ∧
    ∀ j dj, k ≤ j → it.inputDetails[j]? = some dj →
      ∀ s, Ev.resize dj.index s ∉
        (evaluateTFLiteModel it input_data input_shapes).trace := by
  have hmatch0 : ∀ j, j < k → ∃ dj sj, it.inputDetails[0 + j]? = some dj ∧
      input_shapes[j]? = some sj ∧ numpyAllEqual dj.shape_signature sj.1 = some true := by
    intro j hj
    simpa using hmatch j hj
  have hd0 : it.inputDetails[0 + k]? = some d := by simpa using hd
  obtain ⟨⟨hfa, hae⟩, hmem⟩ :=
    resizeInputs_first_mismatch it input_shapes 0 k d sk hmatch0 hd0 hs hne
  have hnores : ∀ j dj, k ≤ j → it.inputDetails[j]? = some dj →
      ∀ s, Ev.resize dj.index s ∉ Ev.load :: (resizeInputs it input_shapes 0).1 := by
    intro j dj hkj hdj s hmemTrace
    rcases List.mem_cons.mp hmemTrace with hhd | htl
    · exact Ev.noConfusion hhd
    · obtain ⟨j', dj', hj'k, hdj', hidx⟩ := hmem dj.index s htl
      have hj'j : j' ≠ j := by omega
      exact nodup_map_index_ne hnodup (by simpa using hdj') hdj hj'j hidx
  cases hcheck : numpyAllEqual d.shape_signature sk.1 with
  | none =>
    have hres : evaluateTFLiteModel it input_data input_shapes =
        { trace := Ev.load :: (resizeInputs it input_shapes 0).1,
          result := Except.error TestFailure.attributeError } := by
      simp [evaluateTFLiteModel, hae hcheck]
    rw [hres]
    refine ⟨⟨?_, fun _ => rfl⟩, hnores⟩
    intro hfalse
    exact Option.noConfusion hfalse
  | some bv =>
    cases bv with
    | true => exact absurd hcheck hne
    | false =>
      have hres : evaluateTFLiteModel it input_data input_shapes =
          { trace := Ev.load :: (resizeInputs it input_shapes 0).1,
            result := Except.error TestFailure.assertionFailure } := by
        simp [evaluateTFLiteModel, hfa hcheck]
      rw [hres]
      refine ⟨⟨fun _ => rfl, ?_⟩, hnores⟩
      intro hnone
      exact Option.noConfusion hnone

/-- C2 amended witness: a model with a single input tensor of stored
shape signature [1, 4], checked against expected signature [2, 4] — same
length, elementwise unequal, so no broadcasting: the call fails with a
test assertion. -/
theorem evaluateTFLiteModel_signature_check_fails_witness :
    (evaluateTFLiteModel mismatchInterp [] [([2, 4], [5, 4])]).result
      = Except.error TestFailure.assertionFailure :=
  (evaluateTFLiteModel_signature_check_fails mismatchInterp [] [([2, 4], [5, 4])] 0
      ⟨0, [1, 4]⟩ ([2, 4], [5, 4])
      (by decide)
      (fun j hj => absurd hj (Nat.not_lt_zero j))
      rfl rfl (by decide)).1.1 (by decide)

/-- C3: `_assertValidDebugInfo` succeeds exactly when the basenames of the
debug-info files include lite_v2_test.py and do not include lite_test.py. -/
theorem assertValidDebugInfo_iff (debug_info : DebugInfo) :
    assertValidDebugInfo debug_info = true ↔
      ("lite_v2_test.py" ∈ debug_info.files.map basename ∧
        "lite_test.py" ∉ debug_info.files.map basename) := by
  simp [assertValidDebugInfo]

/-- C4 counterexample: the file defines one test-helper class, but that
class has six helper methods, not five. -/
theorem modelTest_not_five_methods :
    ¬ (liteV2TestUtilClasses.length = 1 ∧ modelTestHelperMethods.length = 5) := by
  decide

/-- C4 amended: the file defines exactly one test-helper class, and that
class defines exactly six leaf helper methods. -/
theorem modelTest_one_class_six_methods :
    liteV2TestUtilClasses.length = 1 ∧ modelTestHelperMethods.length = 6 := by
  decide

/-- C5: `_getSimpleVariableModel` builds exactly two variables, named `v1`
and `v2`; `_getSimpleModelWithVariables` builds exactly one variable; a
`BasicModel` from `_getMultiFunctionModel` ever holds at most two
variables (`y` and `z`). -/
theorem model_construction_variable_counts :
    simpleVariableModelVariables.length = 2 ∧
    simpleVariableModelVariables.map Prod.fst = ["v1", "v2"] ∧
    getSimpleVariableModel.v1 = 3 ∧ getSimpleVariableModel.v2 = 2 ∧
    simpleModelWithOneVariableVariables.length = 1 ∧
    simpleModelWithOneVariableVariables.map Prod.fst = ["var"] ∧
    ∀ m : BasicModel, m.variableCount ≤ 2 := by
  refine ⟨rfl, rfl, rfl, rfl, rfl, rfl, ?_⟩
  intro m
  cases hy : m.y <;> cases hz : m.z <;> simp [BasicModel.variableCount, hy, hz]

/-- C7: no helper method changes the instance state of the test class;
the attribute store passed in is returned untouched by every helper. -/
theorem modelTest_instance_state_unchanged :
    (∀ s it input_data input_shapes,
        (evaluateTFLiteModelSelf s it input_data input_shapes).1 = s) ∧
    (∀ s b method_name inputs,
        (evaluateTFLiteModelUsingSignatureDefSelf s b method_name inputs).1 = s) ∧
    (∀ s, (getSimpleVariableModelSelf s).1 = s) ∧
    (∀ s, (getSimpleModelWithVariablesSelf s).1 = s) ∧
    (∀ s, (getMultiFunctionModelSelf s).1 = s) ∧
    (∀ s debug_info, (assertValidDebugInfoSelf s debug_info).1 = s) :=
  ⟨fun _ _ _ _ => rfl, fun _ _ _ _ => rfl, fun _ => rfl,
    fun _ => rfl, fun _ => rfl, fun _ _ => rfl⟩

/-- Reachable `BasicModel` states only ever hold `y` as `None` or the
variable created with 2.0, and `z` as `None` or the variable created
with 3.0. -/
lemma BasicModel.reachable_invariant {m : BasicModel} (h : m.Reachable) :
    (m.y = none ∨ m.y = some 2) ∧ (m.z = none ∨ m.z = some 3) := by
  induction h with
  | init => exact ⟨Or.inl rfl, Or.inl rfl⟩
  | @add m x _ ih =>
    obtain ⟨hy, hz⟩ := ih
    cases hmy : m.y with
    | none => exact ⟨Or.inr (by simp [BasicModel.add, hmy]),
        by simpa [BasicModel.add, hmy] using hz⟩
    | some v => exact ⟨by simpa [BasicModel.add, hmy] using hy,
        by simpa [BasicModel.add, hmy] using hz⟩
  | @sub m x _ ih =>
    obtain ⟨hy, hz⟩ := ih
    cases hmz : m.z with
    | none => exact ⟨by simpa [BasicModel.sub, hmz] using hy,
        Or.inr (by simp [BasicModel.sub, hmz])⟩
    | some v => exact ⟨by simpa [BasicModel.sub, hmz] using hy,
        by simpa [BasicModel.sub, hmz] using hz⟩
  | @mulAdd m x y _ ih =>
    obtain ⟨hy, hz⟩ := ih
    cases hmz : m.z with
    | none => exact ⟨by simpa [BasicModel.mul_add, hmz] using hy,
        Or.inr (by simp [BasicModel.mul_add, hmz])⟩
    | some v => exact ⟨by simpa [BasicModel.mul_add, hmz] using hy,
        by simpa [BasicModel.mul_add, hmz] using hz⟩

/-- C9: in `_getMultiFunctionModel`, `y` and `z` start as `None`; `add`
creates `y` with 2.0 on its first call and never touches `z`; `sub` and
`mul_add` create `z` with 3.0 on their first call and never touch `y`;
once a variable exists, no method re-creates it (the state is returned
unchanged); and on every reachable state `add x = x + 2.0`,
`sub x = x - 3.0` and `mul_add x y = x * 3.0 + y`. -/
theorem getMultiFunctionModel_lazy_variables (m : BasicModel) (hm : m.Reachable) :
    (getMultiFunctionModel.y = none ∧ getMultiFunctionModel.z = none) ∧
    (∀ x, m.y = none → (m.add x).1.y = some 2) ∧
    (∀ x, m.z = none → (m.sub x).1.z = some 3) ∧
    (∀ x y, m.z = none → (m.mul_add x y).1.z = some 3) ∧
    (∀ x, (m.add x).1.z = m.z) ∧
    (∀ x, (m.sub x).1.y = m.y) ∧
    (∀ x y, (m.mul_add x y).1.y = m.y) ∧
    (∀ x v, m.y = some v → (m.add x).1 = m) ∧
    (∀ x v, m.z = some v → (m.sub x).1 = m) ∧
    (∀ x y v, m.z = some v → (m.mul_add x y).1 = m) ∧
    (∀ x, (m.add x).2 = x + 2) ∧
    (∀ x, (m.sub x).2 = x - 3) ∧
    (∀ x y, (m.mul_add x y).2 = x * 3 + y) := by
  obtain ⟨hy, hz⟩ := BasicModel.reachable_invariant hm
  refine ⟨⟨rfl, rfl⟩, ?_, ?_, ?_, ?_, ?_, ?_, ?_, ?_, ?_, ?_, ?_, ?_⟩
  · intro x hx
    simp [BasicModel.add, hx]
  · intro x hx
    simp [BasicModel.sub, hx]
  · intro x y hx
    simp [BasicModel.mul_add, hx]
  · intro x
    cases hmy : m.y <;> simp [BasicModel.add, hmy]
  · intro x
    cases hmz : m.z <;> simp [BasicModel.sub, hmz]
  · intro x y
    cases hmz : m.z <;> simp [BasicModel.mul_add, hmz]
  · intro x v hx
    simp [BasicModel.add, hx]
  · intro x v hx
    simp [BasicModel.sub, hx]
  · intro x y v hx
    simp [BasicModel.mul_add, hx]
  · intro x
    rcases hy with hy | hy <;> simp [BasicModel.add, hy]
  · intro x
    rcases hz with hz | hz <;> simp [BasicModel.sub, hz]
  · intro x y
    rcases hz with hz | hz <;> simp [BasicModel.mul_add, hz]

/-- C9 witness: applied to the freshly constructed model, whose state is
reachable by construction: the first call to `add` creates `y` with
value 2.0. -/
theorem getMultiFunctionModel_lazy_variables_witness :
    (BasicModel.init.add 1).1.y = some 2 :=
  (getMultiFunctionModel_lazy_variables BasicModel.init
    BasicModel.Reachable.init).2.1 1 rfl

/-- C10: with the variables at their initial values 3.0 and 2.0, the
traced function of `_getSimpleVariableModel` computes 6.0 times its
input. -/
theorem getSimpleVariableModel_f_linear (x : ℚ) :
    getSimpleVariableModel.f x = 6 * x := by
  show (3 : ℚ) * 2 * x = 6 * x
  ring

/-- C8: when the number of input data entries differs from the number of
interpreter input tensors, `_evaluateTFLiteModel` still succeeds: inputs
are paired by position up to the shorter list (the number of `set_tensor`
calls is the minimum of the two lengths), input tensors beyond that point
are never set, and surplus input data entries are ignored. -/
theorem evaluateTFLiteModel_zip_truncates (it : Interp) (input_data : List Tensor)
    (hlen : input_data.length ≠ it.inputDetails.length)
    (hnodup : (it.inputDetails.map TensorDetail.index).Nodup) :
    (evaluateTFLiteModel it input_data []).result
      = Except.ok (it.outputDetails.map fun d => it.readTensor d.index) ∧
    ((evaluateTFLiteModel it input_data []).trace.filter isSetEv).length
      = min it.inputDetails.length input_data.length ∧
    ∀ j dj, min it.inputDetails.length input_data.length ≤ j →
      it.inputDetails[j]? = some dj →
      ∀ t, Ev.setTensor dj.index t ∉ (evaluateTFLiteModel it input_data []).trace := by
  rw [evaluateTFLiteModel_noShapes]
  refine ⟨rfl, ?_, ?_⟩
  · have hfil1 : ((it.inputDetails.zip input_data).map
        (fun p => Ev.setTensor p.1.index p.2)).filter isSetEv
        = (it.inputDetails.zip input_data).map (fun p => Ev.setTensor p.1.index p.2) :=
      List.filter_eq_self.mpr (by
        intro a ha
        obtain ⟨p, hp, hpe⟩ := List.mem_map.mp ha
        rw [← hpe]
        rfl)
    have hfil2 : (it.outputDetails.map (fun d => Ev.getTensor d.index)).filter isSetEv
        = [] :=
      List.filter_eq_nil_iff.mpr (by simp [isSetEv])
    simp [isSetEv, List.filter_append, hfil1, hfil2]
  · intro j dj hmin hdj t hmemTrace
    obtain ⟨hj, hjv⟩ := List.getElem?_eq_some.mp hdj
    simp only [List.mem_cons, List.mem_append] at hmemTrace
    rcases hmemTrace with h | h | h | h | h
    · exact Ev.noConfusion h
    · exact Ev.noConfusion h
    · rw [List.mem_map] at h
      obtain ⟨p, hp, hpe⟩ := h
      injection hpe with h1 h2
      rw [List.mem_iff_getElem] at hp
      obtain ⟨i, hi, hpi⟩ := hp
      have hi1 : i < it.inputDetails.length := List.lt_length_left_of_zip hi
      have hizip : i < min it.inputDetails.length input_data.length := by
        have := hi
        rwa [List.length_zip] at this
      have hij : i ≠ j := by omega
      have hp1 : p.1 = it.inputDetails[i] := by
        rw [← hpi, List.getElem_zip]
      have hdi : it.inputDetails[i]? = some p.1 :=
        List.getElem?_eq_some.mpr ⟨hi1, hp1.symm⟩
      exact nodup_map_index_ne hnodup hdi hdj hij h1
    · exact Ev.noConfusion h
    · rw [List.mem_map] at h
      obtain ⟨d', hd', hde⟩ := h
      exact Ev.noConfusion hde

/-- C8 witness: one input tensor but an empty input-data list: the call
still returns the outputs, performs zero `set_tensor` calls, and never
sets the surplus input tensor. -/
theorem evaluateTFLiteModel_zip_truncates_witness :
    (evaluateTFLiteModel truncInterp [] []).result
      = Except.ok (truncInterp.outputDetails.map fun d => truncInterp.readTensor d.index) ∧
    ((evaluateTFLiteModel truncInterp [] []).trace.filter isSetEv).length
      = min truncInterp.inputDetails.length ([] : List Tensor).length ∧
    ∀ j dj, min truncInterp.inputDetails.length ([] : List Tensor).length ≤ j →
      truncInterp.inputDetails[j]? = some dj →
      ∀ t, Ev.setTensor dj.index t ∉ (evaluateTFLiteModel truncInterp [] []).trace :=
  evaluateTFLiteModel_zip_truncates truncInterp [] (by decide) (by decide)

/-- C6: no helper method handles errors locally: for every wrapped
library call (interpreter construction, tensor resize, allocation,
set/get tensor, invoke, signature-runner lookup or call, variable
construction), if that call raises while all calls before it succeed,
the helper returns exactly that exception. -/
theorem modelTest_exceptions_propagate :
    (∀ b input_data input_shapes e, b.construct = Except.error e →
        evaluateTFLiteModelF b input_data input_shapes = Outcome.exn e) ∧
    (∀ b input_data input_shapes e, b.construct = Except.ok () →
        b.getInputDetails = Except.error e →
        evaluateTFLiteModelF b input_data input_shapes = Outcome.exn e) ∧
    (∀ b input_data e d shapeSig finalShape, b.construct = Except.ok () →
        b.getInputDetails = Except.ok [d] →
        d.shape_signature = shapeSig →
        b.resizeOp d.index finalShape = Except.error e →
        evaluateTFLiteModelF b input_data [(shapeSig, finalShape)] = Outcome.exn e) ∧
    (∀ b input_data e ds, b.construct = Except.ok () →
        b.getInputDetails = Except.ok ds →
        b.allocateOp = Except.error e →
        evaluateTFLiteModelF b input_data [] = Outcome.exn e) ∧
    (∀ b input_data e ds, b.construct = Except.ok () →
        b.getInputDetails = Except.ok ds →
        b.allocateOp = Except.ok () →
        b.getOutputDetails = Except.error e →
        evaluateTFLiteModelF b input_data [] = Outcome.exn e) ∧
    (∀ b e d t rest outs, b.construct = Except.ok () →
        b.getInputDetails = Except.ok [d] →
        b.allocateOp = Except.ok () →
        b.getOutputDetails = Except.ok outs →
        b.setTensorOp d.index t = Except.error e →
        evaluateTFLiteModelF b (t :: rest) [] = Outcome.exn e) ∧
    (∀ b input_data e outs, b.construct = Except.ok () →
        b.getInputDetails = Except.ok [] →
        b.allocateOp = Except.ok () →
        b.getOutputDetails = Except.ok outs →
        b.invokeOp = Except.error e →
        evaluateTFLiteModelF b input_data [] = Outcome.exn e) ∧
    (∀ b input_data e d, b.construct = Except.ok () →
        b.getInputDetails = Except.ok [] →
        b.allocateOp = Except.ok () →
        b.getOutputDetails = Except.ok [d] →
        b.invokeOp = Except.ok () →
        b.getTensorOp d.index = Except.error e →
        evaluateTFLiteModelF b input_data [] = Outcome.exn e) ∧
    (∀ b method_name inputs e, b.construct = Except.error e →
        evaluateTFLiteModelUsingSignatureDefF b method_name inputs = Outcome.exn e) ∧
    (∀ b method_name inputs e, b.construct = Except.ok () →
        b.signatureRunner method_name = Except.error e →
        evaluateTFLiteModelUsingSignatureDefF b method_name inputs = Outcome.exn e) ∧
    (∀ b method_name inputs runner e, b.construct = Except.ok () →
        b.signatureRunner method_name = Except.ok runner →
        runner inputs = Except.error e →
        evaluateTFLiteModelUsingSignatureDefF b method_name inputs = Outcome.exn e) ∧
    (∀ mkVariable e, mkVariable (3 : ℚ) = Except.error e →
        getSimpleVariableModelF mkVariable = Outcome.exn e) ∧
    (∀ mkVariable v e, mkVariable (3 : ℚ) = Except.ok v →
        mkVariable (2 : ℚ) = Except.error e →
        getSimpleVariableModelF mkVariable = Outcome.exn e) := by
  refine ⟨?_, ?_, ?_, ?_, ?_, ?_, ?_, ?_, ?_, ?_, ?_, ?_, ?_⟩
  · intro b input_data input_shapes e h1
    simp [evaluateTFLiteModelF, liftE, h1]
  · intro b input_data input_shapes e h1 h2
    simp [evaluateTFLiteModelF, liftE, h1, h2]
  · intro b input_data e d shapeSig finalShape h1 h2 h3 h4
    have hcheck : numpyAllEqual d.shape_signature shapeSig = some true := by
      rw [h3]
      simp [numpyAllEqual]
    simp [evaluateTFLiteModelF, liftE, resizeInputsF, Outcome.andThen,
      h1, h2, hcheck, h4]
  · intro b input_data e ds h1 h2 h3
    simp [evaluateTFLiteModelF, liftE, resizeInputsF, Outcome.andThen,
      h1, h2, h3]
  · intro b input_data e ds h1 h2 h3 h4
    simp [evaluateTFLiteModelF, liftE, resizeInputsF, Outcome.andThen,
      h1, h2, h3, h4]
  · intro b e d t rest outs h1 h2 h3 h4 h5
    simp [evaluateTFLiteModelF, liftE, resizeInputsF, setTensorsF,
      Outcome.andThen, h1, h2, h3, h4, h5]
  · intro b input_data e outs h1 h2 h3 h4 h5
    simp [evaluateTFLiteModelF, liftE, resizeInputsF, setTensorsF,
      Outcome.andThen, h1, h2, h3, h4, h5]
  · intro b input_data e d h1 h2 h3 h4 h5 h6
    simp [evaluateTFLiteModelF, liftE, resizeInputsF, setTensorsF,
      readOutputsF, Outcome.andThen, h1, h2, h3, h4, h5, h6]
  · intro b method_name inputs e h1
    simp [evaluateTFLiteModelUsingSignatureDefF, liftE, h1]
  · intro b method_name inputs e h1 h2
    simp [evaluateTFLiteModelUsingSignatureDefF, liftE, h1, h2]
  · intro b method_name inputs runner e h1 h2 h3
    simp [evaluateTFLiteModelUsingSignatureDefF, liftE, h1, h2, h3]
  · intro mkVariable e h1
    simp [getSimpleVariableModelF, liftE, h1]
  · intro mkVariable v e h1 h2
    simp [getSimpleVariableModelF, liftE, h1, h2]

/-- C6 witness: an interpreter whose construction raises makes
`_evaluateTFLiteModel` end with exactly that exception. -/
theorem modelTest_exceptions_propagate_witness :
    evaluateTFLiteModelF errInterp [] [] = Outcome.exn "boom" :=
  modelTest_exceptions_propagate.1 errInterp [] [] "boom" rfl

end LiteV2TestUtil
